import Mathlib

/-!
Verification development for PDFix (src/PDFix.py).

The external world (filesystem and the PyMuPDF engine) is modelled as an
oracle environment: each fallible external call is a field of an
environment record whose value fixes that call's outcome.  `Except.error`
in a return type marks a Python exception escaping the function under
study; `Except.ok` marks a normal return.  File contents are tracked
abstractly: the file at the input path is either still its original bytes
or has been replaced by a file of a recorded size.
-/

namespace PDFix

/-- Character-wise lowercase, modelling Python str.lower on ASCII file names. -/
def lowerStr (s : List Char) : List Char := s.map Char.toLower

/-- Substring test, modelling the Python expression needle in haystack. -/
def containsSeq (needle : List Char) : List Char → Bool
  | [] => needle.isEmpty
  | c :: rest => needle.isPrefixOf (c :: rest) || containsSeq needle rest

/-- The substring the directory walk filters out (PDFix.py line 56). -/
def tempPattern : List Char := ".temp_optimized.pdf".data

/-- The temporary file name the single-file optimizer generates
(PDFix.py line 172): .temp_opt_basename_pid_timestamp.pdf. -/
def tempName (base : List Char) (pid ts : Nat) : List Char :=
  ".temp_opt_".data ++ base ++ "_".data ++ (Nat.repr pid).data
    ++ "_".data ++ (Nat.repr ts).data ++ ".pdf".data

/-- Extension filter from the walk (PDFix.py line 50). -/
def isPdfName (name : List Char) : Bool := ".pdf".data.isSuffixOf (lowerStr name)

/-- Save parameters selected from the compression level (PDFix.py lines 36-42). -/
structure Params where
  garbage : Nat
  deflate : Bool
  clean : Bool
deriving DecidableEq

/-- The compression table lookup with fallback to medium (PDFix.py line 42). -/
def compression_params (level : Nat) : Params :=
  if level = 0 then { garbage := 1, deflate := true, clean := true }
  else if level = 1 then { garbage := 3, deflate := true, clean := true }
  else if level = 2 then { garbage := 4, deflate := true, clean := true }
  else { garbage := 3, deflate := true, clean := true }

/-- Oracle for the external calls made by page_by_page_recovery
(PDFix.py lines 339-418), in program order:
initial fitz.open (is_pdf flag and page count), NamedTemporaryFile creation,
second fitz.open (page count), per-page insert_pdf failures, new_doc.save,
reopen of the saved temp, shutil.copy2 to the .repaired.pdf sibling,
os.replace over the original, and the final fitz.open of the replaced
original.  repairedSize is the byte size of the reconstructed file that
os.replace installs over the original when it runs. -/
structure RecEnv where
  open1 : Except String (Bool × Nat)
  mkTempOk : Bool
  open2 : Except String Nat
  pageFails : Nat → Bool
  saveOk : Bool
  reopenOk : Bool
  copyOk : Bool
  replaceOk : Bool
  finalOpenOk : Bool
  repairedSize : Nat

/-- Result of page_by_page_recovery: ret is the Python return
(error = an exception escaped the function, ok none = returned None,
ok (some ()) = returned a document); replaced records whether the original
file was overwritten by the reconstruction (os.replace at line 401 ran). -/
structure RecResult where
  ret : Except String (Option Unit)
  replaced : Bool

/-- Message of the NameError raised when the finally block at line 412 reads
temp_file.name although NamedTemporaryFile at line 362 raised, leaving
temp_file unbound. -/
def nameErrorMsg : String := "NameError: temp_file is not defined"

/-- Number of pages successfully inserted by the loop at lines 375-380. -/
def copiedPages (env : RecEnv) (pc : Nat) : Nat :=
  ((List.range pc).filter (fun i => !env.pageFails i)).length

/-- Second phase of page_by_page_recovery (PDFix.py lines 360-418): the
aggressive page-by-page reconstruction.  Every exception inside the big
try is caught by the except at line 408 and the function falls through to
return None — except when NamedTemporaryFile itself raised, in which case
the cleanup in the finally block raises NameError (temp_file unbound),
which escapes the function. -/
def recPhase2 (env : RecEnv) : RecResult :=
  if env.mkTempOk = false then
    { ret := .error nameErrorMsg, replaced := false }
  else
    match env.open2 with
    | .error _ => { ret := .ok none, replaced := false }
    | .ok pc =>
      if env.saveOk = false then { ret := .ok none, replaced := false }
      else if env.reopenOk = false then { ret := .ok none, replaced := false }
      else if 0 < copiedPages env pc then
        if env.copyOk = false then { ret := .ok none, replaced := false }
        else if env.replaceOk = false then { ret := .ok none, replaced := false }
        else if env.finalOpenOk then { ret := .ok (some ()), replaced := true }
        else { ret := .ok none, replaced := true }
      else { ret := .ok none, replaced := false }

/-- page_by_page_recovery (PDFix.py lines 339-418).  First phase: try a
normal open; if the document opens with is_pdf and a positive page count it
is returned at once; any failure (exception or the checks failing) falls
through to the reconstruction phase. -/
def page_by_page_recovery (env : RecEnv) : RecResult :=
  match env.open1 with
  | .ok (isPdf, pc) =>
      if isPdf && decide (0 < pc) then { ret := .ok (some ()), replaced := false }
      else recPhase2 env
  | .error _ => recPhase2 env

/-- Oracle for the external calls made by optimize_pdf
(PDFix.py lines 149-281), in program order: os.path.getsize of the input
(line 161, outside the try block), fitz.open (ok carries the is_encrypted
flag of the opened document), the environment of the one-argument
page_by_page_recovery call used when the open fails in repair mode, the
is_encrypted flag of the document that recovery returns, the standard save
(line 203), the conservative fallback save (line 218), the os.path.exists
check on the temp path (line 242), os.path.getsize of the temp file
(line 246), shutil.move over the original (line 252), and os.remove of the
temp file (line 259). -/
structure OptEnv where
  origSize : Except String Nat
  openRes : Except String Bool
  recEnv : RecEnv
  recEncrypted : Bool
  save1 : Except String Unit
  save2 : Except String Unit
  tempExists : Bool
  tempSize : Except String Nat
  moveOk : Bool
  removeOk : Bool

/-- State of the file at the input path after the call, relative to its
state before: untouched, or overwritten by a file of the given size. -/
inductive FileState
  | original
  | replacedBy (n : Nat)
deriving DecidableEq

/-- The result dict built by optimize_pdf (PDFix.py lines 162-168). -/
structure OptResult where
  success : Bool
  original_size : Nat
  new_size : Nat
  error : Option String
  repaired : Bool
deriving DecidableEq

/-- Full outcome of one optimize_pdf call: ret is the Python return
(error = an exception escaped the function), finalFile the state of the
file at the input path, saveAttempted whether any Document.save call was
issued, tempCreated whether a save call completed and so created the temp
file. -/
structure OptOutcome where
  ret : Except String OptResult
  finalFile : FileState
  saveAttempted : Bool
  tempCreated : Bool

/-- Message of the TypeError raised by the call at PDFix.py line 230,
which passes two arguments to the one-parameter page_by_page_recovery. -/
def typeErrorMsg : String :=
  "page_by_page_recovery() takes 1 positional argument but 2 were given"

/-- Size-gated replacement (PDFix.py lines 241-261), entered after a save
attempt succeeded: verify the temp file exists, read its size, move it over
the original only when strictly smaller, otherwise delete it and keep the
original; every raise lands in the handler at line 263 which records the
message in the result. -/
def sizeGate (env : OptEnv) (r : OptResult) (fs : FileState) (sz : Nat) : OptOutcome :=
  if env.tempExists then
    match env.tempSize with
    | .error m =>
        { ret := .ok { r with error := some m }, finalFile := fs,
          saveAttempted := true, tempCreated := true }
    | .ok newSize =>
        if newSize < sz then
          if env.moveOk then
            { ret := .ok { r with success := true, new_size := newSize },
              finalFile := .replacedBy newSize, saveAttempted := true, tempCreated := true }
          else
            { ret := .ok { r with error := some "Failed to replace original file" },
              finalFile := fs, saveAttempted := true, tempCreated := true }
        else
          if env.removeOk then
            { ret := .ok { r with success := true }, finalFile := fs,
              saveAttempted := true, tempCreated := true }
          else
            { ret := .ok { r with error := some "could not remove temporary file" },
              finalFile := fs, saveAttempted := true, tempCreated := true }
  else
    { ret := .ok { r with error := some "Temporary optimized file was not created" },
      finalFile := fs, saveAttempted := true, tempCreated := true }

/-- Continuation of optimize_pdf once a document is in hand
(PDFix.py lines 190-261): the encryption check, the standard save, the
conservative fallback save in repair mode, and — when both saves fail in
repair mode — the two-argument page_by_page_recovery call at line 230,
which raises TypeError immediately (the function takes one parameter), so
the reconstruction never runs and the outer handler records the TypeError
message. -/
def afterOpen (env : OptEnv) (repairMode : Bool) (sz : Nat)
    (r : OptResult) (encrypted : Bool) (fs : FileState) : OptOutcome :=
  if encrypted then
    { ret := .ok { r with error := some "PDF is encrypted" }, finalFile := fs,
      saveAttempted := false, tempCreated := false }
  else
    match env.save1 with
    | .ok _ => sizeGate env r fs sz
    | .error m1 =>
      if repairMode then
        match env.save2 with
        | .ok _ => sizeGate env { r with repaired := true } fs sz
        | .error _ =>
            { ret := .ok { r with error := some typeErrorMsg }, finalFile := fs,
              saveAttempted := true, tempCreated := false }
      else
        { ret := .ok { r with error := some m1 }, finalFile := fs,
          saveAttempted := true, tempCreated := false }

/-- optimize_pdf (PDFix.py lines 149-281).  os.path.getsize at line 161
runs before the try block, so its failure escapes as an exception.  In
repair mode an open failure triggers the one-argument
page_by_page_recovery call at line 186, which may overwrite the original
file with the reconstruction (no size gate) before the optimizer
continues; params is the save configuration, which only feeds the engine
save calls, whose outcomes the environment already fixes. -/
def optimize_pdf (env : OptEnv) (params : Params) (repairMode : Bool) : OptOutcome :=
  match env.origSize with
  | .error m =>
      { ret := .error m, finalFile := .original,
        saveAttempted := false, tempCreated := false }
  | .ok sz =>
    let r0 : OptResult :=
      { success := false, original_size := sz, new_size := sz,
        error := none, repaired := false }
    match env.openRes with
    | .ok enc => afterOpen env repairMode sz r0 enc .original
    | .error m =>
      if repairMode then
        let r1 : OptResult := { r0 with repaired := true }
        let recRes := page_by_page_recovery env.recEnv
        let fs : FileState :=
          if recRes.replaced then .replacedBy env.recEnv.repairedSize else .original
        match recRes.ret with
        | .error m2 =>
            { ret := .ok { r1 with error := some m2 }, finalFile := fs,
              saveAttempted := false, tempCreated := false }
        | .ok none =>
            { ret := .ok { r1 with error := some "PDF repair failed" }, finalFile := fs,
              saveAttempted := false, tempCreated := false }
        | .ok (some _) => afterOpen env repairMode sz r1 env.recEncrypted fs
      else
        { ret := .ok { r0 with error := some m }, finalFile := .original,
          saveAttempted := false, tempCreated := false }

/-- The stats dict accumulated by optimize_pdfs (PDFix.py lines 24-33);
the time fields and the derived reduction percent are not modelled. -/
structure Stats where
  total_files : Nat
  optimized_files : Nat
  skipped_files : Nat
  failed_files : Nat
  repaired_files : Nat
  original_size_bytes : Nat
  optimized_size_bytes : Nat
deriving DecidableEq

def initStats : Stats :=
  { total_files := 0, optimized_files := 0, skipped_files := 0, failed_files := 0,
    repaired_files := 0, original_size_bytes := 0, optimized_size_bytes := 0 }

/-- One file yielded by os.walk, with the oracle outcomes of the external
calls the loop body makes on it: os.path.exists/os.access (accessible),
os.path.getsize at line 71 (sizeRes), shutil.disk_usage free bytes
(diskFree), the environment of the optimize_pdf call, and the getsize
attempted inside the outer exception handler at lines 130-135
(postErrSize, none when it fails or the file is gone). -/
structure WalkFile where
  name : List Char
  path : List Char
  accessible : Bool
  sizeRes : Except String Nat
  diskFree : Except String Nat
  optEnv : OptEnv
  postErrSize : Option Nat

/-- The size-threshold filter (PDFix.py line 80): skip when a threshold is
set and the file size in MB is below it; threshold is in MB, compared in
bytes.  A threshold of 0 is falsy in Python, and some 0 here likewise never
skips. -/
def thresholdSkip : Option Nat → Nat → Bool
  | none, _ => false
  | some t, fsize => decide (fsize < t * 1048576)

/-- The free-disk-space filter (PDFix.py lines 87-95): skip when free space
is below twice the file size; a failure of the query itself is only a
warning and does not skip. -/
def diskSkip : Except String Nat → Nat → Bool
  | .ok free, fsize => decide (free < fsize * 2)
  | .error _, _ => false

/-- The loop body of optimize_pdfs for one walked file
(PDFix.py lines 49-135), threading (stats, processed-path list).
Non-.pdf names and paths that are already processed or contain the
tempPattern substring are passed over before the total count; every
other path is counted once and then classified as failed, skipped, or,
through optimize_pdf, optimized or failed; an exception escaping
optimize_pdf is caught at line 126 and counted as failed.  The backup
copy (lines 98-103) touches no statistic and is not modelled. -/
def stepFile (params : Params) (repairMode : Bool) (threshold : Option Nat)
    (acc : Stats × List (List Char)) (f : WalkFile) : Stats × List (List Char) :=
  if isPdfName f.name = false then acc
  else if acc.2.contains f.path || containsSeq tempPattern f.path then acc
  else
    let processed := f.path :: acc.2
    let st := { acc.1 with total_files := acc.1.total_files + 1 }
    if f.accessible = false then
      ({ st with failed_files := st.failed_files + 1 }, processed)
    else
      match f.sizeRes with
      | .error _ => ({ st with failed_files := st.failed_files + 1 }, processed)
      | .ok fsize =>
        let st2 := { st with original_size_bytes := st.original_size_bytes + fsize }
        if thresholdSkip threshold fsize then
          ({ st2 with skipped_files := st2.skipped_files + 1,
                      optimized_size_bytes := st2.optimized_size_bytes + fsize }, processed)
        else if diskSkip f.diskFree fsize then
          ({ st2 with skipped_files := st2.skipped_files + 1,
                      optimized_size_bytes := st2.optimized_size_bytes + fsize }, processed)
        else
          match (optimize_pdf f.optEnv params repairMode).ret with
          | .ok r =>
            if r.success then
              ({ st2 with optimized_files := st2.optimized_files + 1,
                          optimized_size_bytes := st2.optimized_size_bytes + r.new_size,
                          repaired_files :=
                            st2.repaired_files + (if r.repaired then 1 else 0) }, processed)
            else
              ({ st2 with failed_files := st2.failed_files + 1,
                          optimized_size_bytes :=
                            st2.optimized_size_bytes + r.original_size }, processed)
          | .error _ =>
            ({ st2 with failed_files := st2.failed_files + 1,
                        optimized_size_bytes :=
                          st2.optimized_size_bytes + f.postErrSize.getD 0 }, processed)

/-- optimize_pdfs (PDFix.py lines 10-146) over the list of files the walk
yields, returning the final statistics. -/
def optimize_pdfs (files : List WalkFile) (compression_level : Nat)
    (repairMode : Bool) (threshold : Option Nat) : Stats :=
  (files.foldl (stepFile (compression_params compression_level) repairMode threshold)
    (initStats, [])).1

/-- Medium compression parameters, the default. -/
def pMed : Params := compression_params 1

/-- Recovery environment in which every step succeeds: the direct open
fails, reconstruction copies the single page, and the reconstructed file
of 500 bytes is installed over the original. -/
def recEnvOk : RecEnv :=
  { open1 := .error "cannot open document", mkTempOk := true, open2 := .ok 1,
    pageFails := fun _ => false, saveOk := true, reopenOk := true,
    copyOk := true, replaceOk := true, finalOpenOk := true, repairedSize := 500 }

/-- Recovery environment in which the direct open fails and
NamedTemporaryFile creation also fails. -/
def recEnvNoTemp : RecEnv :=
  { open1 := .error "cannot open document", mkTempOk := false, open2 := .ok 0,
    pageFails := fun _ => false, saveOk := true, reopenOk := true,
    copyOk := true, replaceOk := true, finalOpenOk := true, repairedSize := 0 }

/-- Plain optimizer environment: a 100-byte file opens unencrypted, the
standard save succeeds, and the 50-byte temp file replaces it. -/
def envGate : OptEnv :=
  { origSize := .ok 100, openRes := .ok false, recEnv := recEnvOk,
    recEncrypted := false, save1 := .ok (), save2 := .ok (),
    tempExists := true, tempSize := .ok 50, moveOk := true, removeOk := true }

/-- Optimizer environment for the repair-then-grow scenario: the direct
open of the 100-byte file fails, recovery (recEnvOk) replaces it with a
500-byte reconstruction, and the subsequent save produces a 500-byte temp
file, so the size gate keeps what is now the grown file. -/
def envRepairGrow : OptEnv :=
  { origSize := .ok 100, openRes := .error "cannot open document", recEnv := recEnvOk,
    recEncrypted := false, save1 := .ok (), save2 := .ok (),
    tempExists := true, tempSize := .ok 500, moveOk := true, removeOk := true }

/-- Optimizer environment in which the document opens unencrypted but the
standard and the conservative fallback save both raise. -/
def envSaveFail : OptEnv :=
  { origSize := .ok 100, openRes := .ok false, recEnv := recEnvOk,
    recEncrypted := false, save1 := .error "save failed",
    save2 := .error "fallback save failed",
    tempExists := false, tempSize := .error "no temp file", moveOk := true, removeOk := true }

/-- Optimizer environment in which the initial os.path.getsize raises. -/
def envNoSize : OptEnv :=
  { origSize := .error "No such file or directory", openRes := .ok false,
    recEnv := recEnvOk, recEncrypted := false, save1 := .ok (), save2 := .ok (),
    tempExists := true, tempSize := .ok 50, moveOk := true, removeOk := true }

/-- Optimizer environment in which the document opens and reports
encryption. -/
def envEnc : OptEnv :=
  { origSize := .ok 100, openRes := .ok true, recEnv := recEnvOk,
    recEncrypted := false, save1 := .ok (), save2 := .ok (),
    tempExists := true, tempSize := .ok 50, moveOk := true, removeOk := true }

/-! Helper lemmas shared by the claim theorems. -/

/-- A successful result coming out of the size gate never exceeds the
recorded original size, provided the result fed in had both size fields at
the original size and was not yet successful. -/
theorem sizeGate_success_le (env : OptEnv) (r : OptResult) (fs : FileState) (sz : Nat)
    (hs : r.success = false) (hn : r.new_size = sz) (ho : r.original_size = sz)
    (r2 : OptResult) (hret : (sizeGate env r fs sz).ret = .ok r2)
    (hsucc : r2.success = true) : r2.new_size ≤ r2.original_size := by
  unfold sizeGate at hret
  split at hret
  · split at hret
    · simp only [Except.ok.injEq] at hret
      subst hret
      simp_all
    · split at hret
      · rename_i newSize hlt
        split at hret
        · simp only [Except.ok.injEq] at hret
          subst hret
          dsimp only at hsucc ⊢
          omega
        · simp only [Except.ok.injEq] at hret
          subst hret
          simp_all
      · split at hret
        · simp only [Except.ok.injEq] at hret
          subst hret
          dsimp only at hsucc ⊢
          omega
        · simp only [Except.ok.injEq] at hret
          subst hret
          simp_all
  · simp only [Except.ok.injEq] at hret
    subst hret
    simp_all

/-- The success-size invariant holds through the save phase. -/
theorem afterOpen_success_le (env : OptEnv) (rm : Bool) (sz : Nat)
    (r : OptResult) (enc : Bool) (fs : FileState)
    (hs : r.success = false) (hn : r.new_size = sz) (ho : r.original_size = sz)
    (r2 : OptResult) (hret : (afterOpen env rm sz r enc fs).ret = .ok r2)
    (hsucc : r2.success = true) : r2.new_size ≤ r2.original_size := by
  unfold afterOpen at hret
  split at hret
  · simp only [Except.ok.injEq] at hret
    subst hret
    simp_all
  · split at hret
    · exact sizeGate_success_le env r fs sz hs hn ho r2 hret hsucc
    · split at hret
      · split at hret
        · exact sizeGate_success_le env { r with repaired := true } fs sz hs hn ho r2 hret hsucc
        · simp only [Except.ok.injEq] at hret
          subst hret
          simp_all
      · simp only [Except.ok.injEq] at hret
        subst hret
        simp_all

/-- Every successful FileOutcome of optimize_pdf reports a new size no
larger than the recorded original size. -/
theorem optimize_pdf_success_le (env : OptEnv) (params : Params) (rm : Bool)
    (r2 : OptResult) (hret : (optimize_pdf env params rm).ret = .ok r2)
    (hsucc : r2.success = true) : r2.new_size ≤ r2.original_size := by
  unfold optimize_pdf at hret
  split at hret
  · exact absurd hret (by simp)
  · rename_i sz hsz
    split at hret
    · exact afterOpen_success_le env rm sz _ _ _ rfl rfl rfl r2 hret hsucc
    · split at hret
      · dsimp only at hret
        split at hret
        · simp only [Except.ok.injEq] at hret
          subst hret
          simp_all
        · simp only [Except.ok.injEq] at hret
          subst hret
          simp_all
        · exact afterOpen_success_le env rm sz _ _ _ rfl rfl rfl r2 hret hsucc
      · simp only [Except.ok.injEq] at hret
        subst hret
        simp_all

/-- The size gate always returns a FileOutcome, never an exception. -/
theorem sizeGate_ret_ok (env : OptEnv) (r : OptResult) (fs : FileState) (sz : Nat) :
    ∃ r2, (sizeGate env r fs sz).ret = .ok r2 := by
  unfold sizeGate
  split
  · split
    · exact ⟨_, rfl⟩
    · split
      · split
        · exact ⟨_, rfl⟩
        · exact ⟨_, rfl⟩
      · split
        · exact ⟨_, rfl⟩
        · exact ⟨_, rfl⟩
  · exact ⟨_, rfl⟩

/-- The save phase always returns a FileOutcome, never an exception. -/
theorem afterOpen_ret_ok (env : OptEnv) (rm : Bool) (sz : Nat)
    (r : OptResult) (enc : Bool) (fs : FileState) :
    ∃ r2, (afterOpen env rm sz r enc fs).ret = .ok r2 := by
  unfold afterOpen
  split
  · exact ⟨_, rfl⟩
  · split
    · exact sizeGate_ret_ok env r fs sz
    · split
      · split
        · exact sizeGate_ret_ok env { r with repaired := true } fs sz
        · exact ⟨_, rfl⟩
      · exact ⟨_, rfl⟩

/-- The size gate leaves the file alone except for the one strictly
shrinking replacement. -/
theorem sizeGate_frame (env : OptEnv) (r : OptResult) (sz : Nat) :
    (sizeGate env r .original sz).finalFile = FileState.original ∨
    ∃ n, (sizeGate env r .original sz).finalFile = FileState.replacedBy n ∧ n < sz := by
  unfold sizeGate
  split
  · split
    · exact Or.inl rfl
    · split
      · rename_i newSize heq hlt
        split
        · exact Or.inr ⟨newSize, rfl, hlt⟩
        · exact Or.inl rfl
      · split
        · exact Or.inl rfl
        · exact Or.inl rfl
  · exact Or.inl rfl

/-- The save phase leaves the file alone except for the one strictly
shrinking replacement. -/
theorem afterOpen_frame (env : OptEnv) (rm : Bool) (sz : Nat)
    (r : OptResult) (enc : Bool) :
    (afterOpen env rm sz r enc .original).finalFile = FileState.original ∨
    ∃ n, (afterOpen env rm sz r enc .original).finalFile = FileState.replacedBy n ∧ n < sz := by
  unfold afterOpen
  split
  · exact Or.inl rfl
  · split
    · exact sizeGate_frame env r sz
    · split
      · split
        · exact sizeGate_frame env { r with repaired := true } sz
        · exact Or.inl rfl
      · exact Or.inl rfl

/-- The outcome of optimize_pdf on a document that opens and reports
encryption: the error is recorded, nothing is saved, the file untouched. -/
theorem encrypted_outcome (env : OptEnv) (params : Params) (rm : Bool) (sz : Nat)
    (hsz : env.origSize = Except.ok sz)
    (henc : env.openRes = Except.ok true) :
    optimize_pdf env params rm =
      { ret := Except.ok { success := false, original_size := sz, new_size := sz,
                           error := some "PDF is encrypted", repaired := false },
        finalFile := FileState.original, saveAttempted := false, tempCreated := false } := by
  simp [optimize_pdf, hsz, henc, afterOpen]

/-- C1: when the save attempts have produced a temp file, the size gate
moves the temp over the original exactly when it is strictly smaller
(recording the new size) and otherwise deletes it and keeps the original
(keeping newSizeBytes at originalSizeBytes); either way the outcome is
success with newSizeBytes at most originalSizeBytes, and every successful
outcome of optimize_pdf satisfies that bound. -/
theorem optimize_pdf_size_gate_spec (env : OptEnv) (params : Params) (rm : Bool) (sz n : Nat)
    (h1 : env.origSize = Except.ok sz)
    (h2 : env.openRes = Except.ok false)
    (h3 : env.save1 = Except.ok ())
    (h4 : env.tempExists = true)
    (h5 : env.tempSize = Except.ok n)
    (h6 : env.moveOk = true)
    (h7 : env.removeOk = true) :
    ∃ r, (optimize_pdf env params rm).ret = Except.ok r ∧ r.success = true ∧
      r.original_size = sz ∧ r.new_size ≤ r.original_size ∧
      (n < sz → r.new_size = n ∧
        (optimize_pdf env params rm).finalFile = FileState.replacedBy n) ∧
      (¬ n < sz → r.new_size = sz ∧
        (optimize_pdf env params rm).finalFile = FileState.original) ∧
      (∀ env2 params2 rm2 r2, (optimize_pdf env2 params2 rm2).ret = Except.ok r2 →
        r2.success = true → r2.new_size ≤ r2.original_size) := by
  by_cases hlt : n < sz
  · refine ⟨{ success := true, original_size := sz, new_size := n,
              error := none, repaired := false },
      ?_, rfl, rfl, Nat.le_of_lt hlt, fun _ => ⟨rfl, ?_⟩,
      fun hc => absurd hlt hc,
      fun env2 params2 rm2 r2 => optimize_pdf_success_le env2 params2 rm2 r2⟩
    · simp [optimize_pdf, afterOpen, sizeGate, h1, h2, h3, h4, h5, h6, hlt]
    · simp [optimize_pdf, afterOpen, sizeGate, h1, h2, h3, h4, h5, h6, hlt]
  · refine ⟨{ success := true, original_size := sz, new_size := sz,
              error := none, repaired := false },
      ?_, rfl, rfl, Nat.le_refl sz, fun hc => absurd hc hlt, fun _ => ⟨rfl, ?_⟩,
      fun env2 params2 rm2 r2 => optimize_pdf_success_le env2 params2 rm2 r2⟩
    · simp [optimize_pdf, afterOpen, sizeGate, h1, h2, h3, h4, h5, h7, hlt]
    · simp [optimize_pdf, afterOpen, sizeGate, h1, h2, h3, h4, h5, h7, hlt]

/-- Witness for C1 at envGate: the 50-byte temp file replaces the 100-byte
original. -/
theorem optimize_pdf_size_gate_spec_witness :
    (optimize_pdf envGate pMed false).finalFile = FileState.replacedBy 50 := by
  obtain ⟨r, hr1, hr2, hr3, hr4, hr5, hr6, hr7⟩ :=
    optimize_pdf_size_gate_spec envGate pMed false 100 50 rfl rfl rfl rfl rfl rfl rfl
  exact (hr5 (by omega)).2

/-- C2 counterexample: with repairMode on and a direct open failure, the
one-argument page_by_page_recovery overwrites the 100-byte original with
its 500-byte reconstruction before any size check, so afterwards the file
is neither byte-identical nor strictly smaller. -/
theorem optimize_pdf_repair_grows :
    ¬ ((optimize_pdf envRepairGrow pMed true).finalFile = FileState.original ∨
       ∃ n, (optimize_pdf envRepairGrow pMed true).finalFile = FileState.replacedBy n ∧
         n < 100) := by
  have hf : (optimize_pdf envRepairGrow pMed true).finalFile = FileState.replacedBy 500 := by
    rfl
  rintro (h | ⟨n, hn, hlt⟩)
  · rw [hf] at h
    exact FileState.noConfusion h
  · rw [hf] at hn
    injection hn with h500
    omega

/-- C2 amended: when the direct open succeeds, or repair mode is off, the
file at the input path is afterwards either untouched or replaced by a
strictly smaller file; only the repair-on-open path can install a
reconstruction without a size check. -/
theorem optimize_pdf_frame (env : OptEnv) (params : Params) (rm : Bool) (sz : Nat)
    (hsz : env.origSize = Except.ok sz)
    (h : rm = false ∨ ∃ b, env.openRes = Except.ok b) :
    (optimize_pdf env params rm).finalFile = FileState.original ∨
    ∃ n, (optimize_pdf env params rm).finalFile = FileState.replacedBy n ∧ n < sz := by
  rcases h with hrm | ⟨b, hb⟩
  · subst hrm
    cases ho : env.openRes with
    | ok b =>
      simp only [optimize_pdf, hsz, ho]
      exact afterOpen_frame env false sz _ b
    | error m => simp [optimize_pdf, hsz, ho]
  · simp only [optimize_pdf, hsz, hb]
    exact afterOpen_frame env rm sz _ b

/-- Witness for the amended C2 at envGate. -/
theorem optimize_pdf_frame_witness :
    (optimize_pdf envGate pMed false).finalFile = FileState.original ∨
    ∃ n, (optimize_pdf envGate pMed false).finalFile = FileState.replacedBy n ∧ n < 100 :=
  optimize_pdf_frame envGate pMed false 100 rfl (Or.inl rfl)

/-- C3: when both saves fail in repair mode, the recorded error is the
TypeError of the two-argument page_by_page_recovery call, not the
UnrecoverableSave message, and no reconstruction to the temp path runs:
the outcome fails with the TypeError text and the original is untouched. -/
theorem optimize_pdf_two_arg_typeerror :
    (optimize_pdf envSaveFail pMed true).ret =
      Except.ok { success := false, original_size := 100, new_size := 100,
                  error := some typeErrorMsg, repaired := false } ∧
    (optimize_pdf envSaveFail pMed true).finalFile = FileState.original := by
  constructor <;> rfl

/-- C6 counterexample: when the initial os.path.getsize raises, the
exception escapes optimize_pdf instead of being converted into a
FileOutcome. -/
theorem optimize_pdf_getsize_escapes :
    (optimize_pdf envNoSize pMed false).ret = Except.error "No such file or directory" ∧
    ¬ ∃ r, (optimize_pdf envNoSize pMed false).ret = Except.ok r := by
  have h : (optimize_pdf envNoSize pMed false).ret =
      Except.error "No such file or directory" := rfl
  refine ⟨h, ?_⟩
  rintro ⟨r, hr⟩
  rw [h] at hr
  exact Except.noConfusion hr

/-- C6 amended: once the initial size query succeeds, every error inside
optimize_pdf is caught at its boundary and it returns a FileOutcome. -/
theorem optimize_pdf_no_raise (env : OptEnv) (params : Params) (rm : Bool) (sz : Nat)
    (hsz : env.origSize = Except.ok sz) :
    ∃ r, (optimize_pdf env params rm).ret = Except.ok r := by
  cases ho : env.openRes with
  | ok b =>
    simp only [optimize_pdf, hsz, ho]
    exact afterOpen_ret_ok env rm sz _ b .original
  | error m =>
    cases rm with
    | false =>
      simp only [optimize_pdf, hsz, ho, Bool.false_eq_true, if_false]
      exact ⟨_, rfl⟩
    | true =>
      simp only [optimize_pdf, hsz, ho, if_true]
      cases hrec : (page_by_page_recovery env.recEnv).ret with
      | error m2 =>
        simp only [hrec]
        exact ⟨_, rfl⟩
      | ok od =>
        cases od with
        | none =>
          simp only [hrec]
          exact ⟨_, rfl⟩
        | some u =>
          simp only [hrec]
          exact afterOpen_ret_ok env true sz _ env.recEncrypted _

/-- Witness for the amended C6 at envGate. -/
theorem optimize_pdf_no_raise_witness :
    ∃ r, (optimize_pdf envGate pMed false).ret = Except.ok r :=
  optimize_pdf_no_raise envGate pMed false 100 rfl

/-- C7: a document that opens and reports encryption makes optimize_pdf
abort: failure outcome with the encryption error and the sizes equal, no
save attempted, no temp file created, file untouched. -/
theorem optimize_pdf_encrypted (env : OptEnv) (params : Params) (rm : Bool) (sz : Nat)
    (hsz : env.origSize = Except.ok sz)
    (henc : env.openRes = Except.ok true) :
    (optimize_pdf env params rm).ret =
      Except.ok { success := false, original_size := sz, new_size := sz,
                  error := some "PDF is encrypted", repaired := false } ∧
    (optimize_pdf env params rm).saveAttempted = false ∧
    (optimize_pdf env params rm).tempCreated = false ∧
    (optimize_pdf env params rm).finalFile = FileState.original := by
  rw [encrypted_outcome env params rm sz hsz henc]
  exact ⟨rfl, rfl, rfl, rfl⟩

/-- Witness for C7 at envEnc. -/
theorem optimize_pdf_encrypted_witness :
    (optimize_pdf envEnc pMed false).ret =
      Except.ok { success := false, original_size := 100, new_size := 100,
                  error := some "PDF is encrypted", repaired := false } ∧
    (optimize_pdf envEnc pMed false).saveAttempted = false ∧
    (optimize_pdf envEnc pMed false).tempCreated = false ∧
    (optimize_pdf envEnc pMed false).finalFile = FileState.original :=
  optimize_pdf_encrypted envEnc pMed false 100 rfl rfl

/-- C8: when NamedTemporaryFile creation fails after a failed direct open,
page_by_page_recovery raises (the NameError from the cleanup block, which
reads the unbound temp_file) instead of returning its failure value. -/
theorem page_by_page_recovery_raises :
    (page_by_page_recovery recEnvNoTemp).ret = Except.error nameErrorMsg := rfl

/-- A leftover temporary file of this tool, named exactly as the generator
at line 172 produces. -/
def leftoverName : List Char := tempName "doc.pdf".data 123 456

/-- Walk entry for the leftover temp file lying in /docs. -/
def wfLeftover : WalkFile :=
  { name := leftoverName, path := "/docs/".data ++ leftoverName, accessible := true,
    sizeRes := .ok 100, diskFree := .ok 100000, optEnv := envGate, postErrSize := none }

/-- C4: a leftover temp file named as the tool itself names temp files is
not excluded by the walk: it passes the .pdf extension test, the
tempPattern substring filter does not match it, and the walk counts it and
runs the optimizer on it. -/
theorem leftover_temp_processed :
    isPdfName leftoverName = true ∧
    containsSeq tempPattern ("/docs/".data ++ leftoverName) = false ∧
    (stepFile pMed false none (initStats, ([] : List (List Char))) wfLeftover).1.total_files
      = 1 ∧
    (stepFile pMed false none (initStats, ([] : List (List Char))) wfLeftover).1.optimized_files
      = 1 := by
  refine ⟨by decide, by decide, ?_, ?_⟩ <;> rfl

/-- The classification counts are disjoint and exhaustive. -/
def statsBalanced (s : Stats) : Prop :=
  s.total_files = s.optimized_files + s.skipped_files + s.failed_files

/-- Each walked file preserves the classification balance. -/
theorem stepFile_balanced (params : Params) (rm : Bool) (thr : Option Nat)
    (acc : Stats × List (List Char)) (f : WalkFile) (h : statsBalanced acc.1) :
    statsBalanced (stepFile params rm thr acc f).1 := by
  unfold statsBalanced at h ⊢
  unfold stepFile
  repeat' split
  all_goals try dsimp only
  all_goals omega

/-- Folding the walk preserves the classification balance. -/
theorem foldl_balanced (params : Params) (rm : Bool) (thr : Option Nat) :
    ∀ (files : List WalkFile) (acc : Stats × List (List Char)), statsBalanced acc.1 →
      statsBalanced (files.foldl (stepFile params rm thr) acc).1 := by
  intro files
  induction files with
  | nil =>
    intro acc h
    simpa using h
  | cons f fs ih =>
    intro acc h
    exact ih _ (stepFile_balanced params rm thr acc f h)

/-- C5: at the end of every optimize_pdfs run, totalFiles equals
optimizedFiles plus skippedFiles plus failedFiles. -/
theorem optimize_pdfs_total_eq (files : List WalkFile) (cl : Nat) (rm : Bool)
    (thr : Option Nat) :
    (optimize_pdfs files cl rm thr).total_files =
      (optimize_pdfs files cl rm thr).optimized_files +
      (optimize_pdfs files cl rm thr).skipped_files +
      (optimize_pdfs files cl rm thr).failed_files :=
  foldl_balanced (compression_params cl) rm thr files (initStats, []) rfl

/-- C9: a walked file whose lowercased name does not end in .pdf is passed
over entirely: stats and the processed set are unchanged. -/
theorem stepFile_non_pdf (params : Params) (rm : Bool) (thr : Option Nat)
    (acc : Stats × List (List Char)) (f : WalkFile)
    (h : isPdfName f.name = false) :
    stepFile params rm thr acc f = acc := by
  simp [stepFile, h]

/-- Walk entry for a non-PDF file. -/
def wfTxt : WalkFile :=
  { name := "notes.txt".data, path := "/docs/notes.txt".data, accessible := true,
    sizeRes := .ok 100, diskFree := .ok 100000, optEnv := envGate, postErrSize := none }

/-- Witness for C9 on notes.txt. -/
theorem stepFile_non_pdf_witness :
    stepFile pMed false none (initStats, ([] : List (List Char))) wfTxt
      = (initStats, ([] : List (List Char))) :=
  stepFile_non_pdf pMed false none (initStats, ([] : List (List Char))) wfTxt (by decide)

/-- C10: an encrypted PDF that reaches the optimizer is counted as failed,
never skipped, and its original size is added to the optimized byte total
as well as the original byte total, contributing no change to the
aggregate reduction. -/
theorem stepFile_encrypted_counts (params : Params) (rm : Bool) (thr : Option Nat)
    (st : Stats) (ps : List (List Char)) (f : WalkFile) (sz : Nat)
    (h1 : isPdfName f.name = true)
    (h2 : ps.contains f.path = false)
    (h3 : containsSeq tempPattern f.path = false)
    (h4 : f.accessible = true)
    (h5 : f.sizeRes = Except.ok sz)
    (h6 : thresholdSkip thr sz = false)
    (h7 : diskSkip f.diskFree sz = false)
    (h8 : f.optEnv.origSize = Except.ok sz)
    (h9 : f.optEnv.openRes = Except.ok true) :
    (stepFile params rm thr (st, ps) f).1.failed_files = st.failed_files + 1 ∧
    (stepFile params rm thr (st, ps) f).1.skipped_files = st.skipped_files ∧
    (stepFile params rm thr (st, ps) f).1.optimized_files = st.optimized_files ∧
    (stepFile params rm thr (st, ps) f).1.original_size_bytes
      = st.original_size_bytes + sz ∧
    (stepFile params rm thr (st, ps) f).1.optimized_size_bytes
      = st.optimized_size_bytes + sz := by
  have hopt := encrypted_outcome f.optEnv params rm sz h8 h9
  have h2m : f.path ∉ ps := by
    simpa using h2
  simp [stepFile, h1, h2m, h3, h4, h5, h6, h7, hopt]

/-- Walk entry for an encrypted PDF. -/
def wfEnc : WalkFile :=
  { name := "locked.pdf".data, path := "/docs/locked.pdf".data, accessible := true,
    sizeRes := .ok 100, diskFree := .ok 100000, optEnv := envEnc, postErrSize := none }

/-- Witness for C10 on locked.pdf. -/
theorem stepFile_encrypted_counts_witness :
    (stepFile pMed false none (initStats, ([] : List (List Char))) wfEnc).1.failed_files
      = 1 ∧
    (stepFile pMed false none (initStats, ([] : List (List Char))) wfEnc).1.skipped_files
      = 0 ∧
    (stepFile pMed false none (initStats, ([] : List (List Char))) wfEnc).1.optimized_size_bytes
      = 100 := by
  obtain ⟨a, b, c, d, e⟩ :=
    stepFile_encrypted_counts pMed false none initStats ([] : List (List Char)) wfEnc 100
      (by decide) rfl (by decide) rfl rfl rfl rfl rfl rfl
  exact ⟨a, b, e⟩

end PDFix
